import Mathlib

/-!
Verification of the rulebook chunking + similarity retrieval + prompt assembly
pipeline of the Manuscript-review repository (src/rule_processor.py and
src/reviewer.py), as a shallow embedding in Lean.

Modelling conventions:
* Python strings are `String` / `List Char`; character codes are Unicode code
  points (`Char.toNat`).
* Python `None` is `Option.none`; Python truthiness of a string/list is
  non-emptiness.
* The mock vectors (lists of floats holding exact character-code values) are
  modelled as `List Int`; all vector entries produced by the program are
  integral, so no floating-point rounding is involved.
* The regular expressions of `rule_processor.py` are hand-compiled recognizers
  over `List Char`; `\s` and `str.strip` use the Unicode whitespace set
  (`pyWs`), `\d` is modelled by ASCII plus fullwidth digits (the decimal-digit
  scripts that occur in this code base).
* Python's stable ascending `list.sort(key=...)` is modelled by
  `List.insertionSort`, which is a stable sort for the same total preorder.
-/

/-- Unicode whitespace, the character set matched by Python's `str.strip()`
and (for practical purposes) by `\s` in `re` on `str`. -/
def pyWs (c : Char) : Bool :=
  c = ' ' || c = '\t' || c = '\n' || c = '\r' ||
  c.toNat = 0x0b || c.toNat = 0x0c ||
  c.toNat = 0x1c || c.toNat = 0x1d || c.toNat = 0x1e || c.toNat = 0x1f ||
  c.toNat = 0x85 || c.toNat = 0xa0 || c.toNat = 0x1680 ||
  (0x2000 ≤ c.toNat && c.toNat ≤ 0x200a) ||
  c.toNat = 0x2028 || c.toNat = 0x2029 || c.toNat = 0x202f ||
  c.toNat = 0x205f || c.toNat = 0x3000

/-- Decimal digit as matched by Python's `\d` on `str`, restricted to the
scripts occurring in this repository (ASCII and fullwidth digits). -/
def pyDigit (c : Char) : Bool :=
  c.isDigit || (0xff10 ≤ c.toNat && c.toNat ≤ 0xff19)

/-- ASCII `[a-zA-Z0-9]`. -/
def asciiAlnum (c : Char) : Bool :=
  ('a' ≤ c && c ≤ 'z') || ('A' ≤ c && c ≤ 'Z') || ('0' ≤ c && c ≤ '9')

/-- Katakana `[ア-ン]` or CJK `[一-龠]`, the character class inside the
parenthesized list-item alternative of `list_item_regex`. -/
def kataKanji (c : Char) : Bool :=
  (0x30a2 ≤ c.toNat && c.toNat ≤ 0x30f3) ||
  (0x4e00 ≤ c.toNat && c.toNat ≤ 0x9fa0)

/-- Python `str.strip()` on a character list: drop Unicode whitespace from
both ends. -/
def pyStrip (l : List Char) : List Char :=
  ((l.dropWhile pyWs).reverse.dropWhile pyWs).reverse

/-- Version of `pyStrip` lifted to `String`. -/
def pyStripStr (s : String) : String :=
  ⟨pyStrip s.data⟩

/-- Consume a literal prefix; `none` if the input does not start with it.
(The building block for the anchored `re.match` recognizers.) -/
def dropLit : List Char → List Char → Option (List Char)
  | [], cs => some cs
  | l :: ls, c :: cs => if c = l then dropLit ls cs else none
  | _ :: _, [] => none

/-- Does the input start with the given literal? -/
def startsLit (lit cs : List Char) : Bool :=
  (dropLit lit cs).isSome

/-- Version of `startsLit` lifted to `String` (Python `str.startswith`). -/
def startsLitStr (lit s : String) : Bool :=
  startsLit lit.data s.data

/-- Consume exactly `n` whitespace characters (regex `\s{n}`). -/
def dropExactWs : Nat → List Char → Option (List Char)
  | 0, cs => some cs
  | n + 1, c :: cs => if pyWs c then dropExactWs n cs else none
  | _ + 1, [] => none

/-- Python `re.sub(r' +', ' ', s)`: collapse every run of space characters (U+0020
only — not tabs) to a single space.  The flag records whether the previous
character was a space. -/
def condenseAux : Bool → List Char → List Char
  | _, [] => []
  | prevSpace, c :: rest =>
    if c = ' ' then
      if prevSpace then condenseAux true rest
      else ' ' :: condenseAux true rest
    else c :: condenseAux false rest

/-- Python `re.sub(r' +', ' ', s)` over a character list. -/
def condense (l : List Char) : List Char :=
  condenseAux false l

/-- Python `"\n".join` over character lists. -/
def joinNL : List (List Char) → List Char
  | [] => []
  | l :: rest =>
    match rest with
    | [] => l
    | _ :: _ => l ++ '\n' :: joinNL rest

/-- Python `sep.join` over strings. -/
def pyJoin (sep : String) : List String → String
  | [] => ""
  | s :: rest =>
    match rest with
    | [] => s
    | _ :: _ => s ++ sep ++ pyJoin sep rest

/-- Helper for `pySplitlines`: accumulate the current line (reversed) while
scanning; `\n`, `\r\n` and `\r` terminate a line, and a terminator at the end
of the input does not open a new empty line. -/
def splitlinesAux : List Char → List Char → List (List Char)
  | [], acc => [acc.reverse]
  | '\r' :: '\n' :: rest, acc =>
    acc.reverse :: (if rest.isEmpty then [] else splitlinesAux rest [])
  | '\n' :: rest, acc =>
    acc.reverse :: (if rest.isEmpty then [] else splitlinesAux rest [])
  | '\r' :: rest, acc =>
    acc.reverse :: (if rest.isEmpty then [] else splitlinesAux rest [])
  | c :: rest, acc => splitlinesAux rest (c :: acc)

/-- Python `str.splitlines()` restricted to the `\n`/`\r\n`/`\r` terminators
(the ones present in the documents this program handles). -/
def pySplitlines (s : String) : List (List Char) :=
  if s.data.isEmpty then [] else splitlinesAux s.data []

/-- Does the list contain a non-whitespace character? -/
def hasNonWs (l : List Char) : Bool :=
  l.any (fun c => !(pyWs c))

/-! ## Embedding of `src/rule_processor.py` -/

/-- Anchored recognizer for `main_item_regex = ^\s{4}##\s*大項目\d+：(.+)`;
returns the captured group `(.+)` (the rest of the line after the fullwidth
colon) on success. -/
def matchMainItem (cs : List Char) : Option (List Char) :=
  match dropExactWs 4 cs with
  | none => none
  | some r1 =>
    match dropLit ['#', '#'] r1 with
    | none => none
    | some r2 =>
      let r3 := r2.dropWhile pyWs
      match dropLit ['大', '項', '目'] r3 with
      | none => none
      | some r4 =>
        if (r4.takeWhile pyDigit).isEmpty then none
        else
          match r4.dropWhile pyDigit with
          | '：' :: rest => if rest.isEmpty then none else some rest
          | _ => none

/-- Anchored recognizer for `primary_rule_regex = ^\s{4}[-*]\s+(.*)` as a
boolean (only its success is consulted by the parser for boundary decisions). -/
def primaryRule (cs : List Char) : Bool :=
  match dropExactWs 4 cs with
  | some (b :: c :: _) => (b = '-' || b = '*') && pyWs c
  | _ => false

/-- Anchored recognizer for `sub_rule_bullet_regex = ^\s{8}・\s+(.*)`. -/
def subRuleBullet (cs : List Char) : Bool :=
  match dropExactWs 8 cs with
  | some ('・' :: c :: _) => pyWs c
  | _ => false

/-- Anchored recognizer for
`list_item_regex = ^\s*(\([ア-ン一-龠]+\)|[a-zA-Z0-9]+(?:[.。．]))\s*(.*)`:
after optional leading whitespace, either a parenthesized katakana/kanji
group or an alphanumeric run followed by a dot character. -/
def listItemCandidate (cs : List Char) : Bool :=
  let r := cs.dropWhile pyWs
  (match r with
   | '(' :: rest =>
     !(rest.takeWhile kataKanji).isEmpty &&
       (match rest.dropWhile kataKanji with
        | ')' :: _ => true
        | _ => false)
   | _ => false) ||
  (!(r.takeWhile asciiAlnum).isEmpty &&
    (match r.dropWhile asciiAlnum with
     | d :: _ => d = '.' || d = '。' || d = '．'
     | _ => false))

/-- Python `re.match(r"^\s{8,}", line)`: at least eight leading whitespace
characters (the "deep indentation" gate applied to `list_item_regex`
candidates). -/
def deepIndent8 (cs : List Char) : Bool :=
  8 ≤ (cs.takeWhile pyWs).length

/-- Embedding of `is_new_rule_start` of the parser loop: a primary `[-*]` bullet, a `・`
sub-bullet, or a deeply indented numbered/lettered list item. -/
def isNewRuleStart (cs : List Char) : Bool :=
  primaryRule cs || subRuleBullet cs || (listItemCandidate cs && deepIndent8 cs)

/-- Anchored recognizer for
`ignored_headers_regex = ^\s*###\s*(あなた|手順|審査ポイント詳細)`. -/
def ignoredHeader (cs : List Char) : Bool :=
  match dropLit ['#', '#', '#'] (cs.dropWhile pyWs) with
  | some r2 =>
    let r3 := r2.dropWhile pyWs
    startsLit "あなた".data r3 || startsLit "手順".data r3 ||
      startsLit "審査ポイント詳細".data r3
  | none => false

/-- Anchored recognizer for `ignored_lines_regex` (three literal
alternatives, prefix-matched after optional leading whitespace). -/
def ignoredLine (cs : List Char) : Bool :=
  let r := cs.dropWhile pyWs
  startsLit "手順にある、大項目１～大項目８の中に更に詳細のチェックポイントを記載しています。".data r ||
  startsLit "・ 大項目の中の詳細チェックポイントごとに".data r ||
  startsLit "また参考資料として".data r

/-- A parsed rule chunk: `{'main_item_title': ..., 'rule_text': ...}`. -/
structure RuleChunk where
  main_item_title : String
  rule_text : String
  deriving DecidableEq, Repr

/-- The mutable state of the `parse_rulebook_to_chunks` loop. -/
structure ParseState where
  chunks : List RuleChunk
  current_main_item_title : Option String
  current_rule_lines : List (List Char)
  deriving DecidableEq, Repr

/-- Embedding of `finalize_chunk`: if lines are buffered and a section is open, clean the
buffered raw lines (strip each, collapse space runs within each, join by
newline, strip the whole) and append the chunk; always clear the buffer.
(The first computation of `full_rule_text` in the Python source, which also
replaced tabs, is dead code — it is unconditionally overwritten by the
per-line cleaning loop at lines 74-80 — and is therefore not part of the
embedding.) -/
def finalizeChunk (st : ParseState) : ParseState :=
  match st.current_rule_lines, st.current_main_item_title with
  | [], _ => { st with current_rule_lines := [] }
  | _ :: _, none => { st with current_rule_lines := [] }
  | buf@(_ :: _), some t =>
    let cleaned := buf.map (fun l => condense (pyStrip l))
    let full_rule_text : List Char := pyStrip (joinNL cleaned)
    { st with
      chunks := st.chunks ++ [⟨t, ⟨full_rule_text⟩⟩]
      current_rule_lines := [] }

/-- One iteration of the `for line in lines` loop of
`parse_rulebook_to_chunks`. -/
def parseStep (st : ParseState) (line : List Char) : ParseState :=
  if (pyStrip line).isEmpty then st
  else if ignoredHeader line || ignoredLine line then
    { finalizeChunk st with current_main_item_title := none }
  else
    match matchMainItem line with
    | some g =>
      { finalizeChunk st with current_main_item_title := some ⟨pyStrip g⟩ }
    | none =>
      match st.current_main_item_title with
      | none => st
      | some _ =>
        if isNewRuleStart line then
          { finalizeChunk st with current_rule_lines := [line] }
        else
          { st with current_rule_lines := st.current_rule_lines ++ [line] }

/-- Embedding of `parse_rulebook_to_chunks(rulebook_content)`. -/
def parse_rulebook_to_chunks (rulebook_content : String) : List RuleChunk :=
  (finalizeChunk
    ((pySplitlines rulebook_content).foldl parseStep ⟨[], none, []⟩)).chunks

/-- Embedding of `get_mock_vector(text)`: first 10 characters, right-padded with spaces,
each mapped to its character code. -/
def get_mock_vector (text : String) : List Int :=
  let padded_text := text.data.take 10
  let padded_text := padded_text ++ List.replicate (10 - padded_text.length) ' '
  padded_text.map (fun c => (c.toNat : Int))

/-- Vectorized chunk: `add_mock_vectors_to_chunks` produces dictionaries with `rule_text` and
`vector` keys; `simulate_rag_retrieval` additionally tolerates a missing
`vector` key (`dict.get`), hence the `Option`. -/
structure VChunk where
  rule_text : String
  vector : Option (List Int)
  deriving DecidableEq, Repr

/-- Embedding of `add_mock_vectors_to_chunks(chunks)`. -/
def add_mock_vectors_to_chunks (chunks : List RuleChunk) : List VChunk :=
  chunks.map (fun chunk => ⟨chunk.rule_text, some (get_mock_vector chunk.rule_text)⟩)

/-! ## Embedding of `src/reviewer.py` -/

/-- An entry of the `scored_rules` list:
`{'rule_text': ..., 'score': distance}`. -/
structure Scored where
  rule_text : String
  score : Nat
  deriving DecidableEq, Repr

/-- Embedding of `sum(abs(v1 - v2) for v1, v2 in zip(...))`: L1 distance over the zipped
prefix.  The distances are sums of absolute values of integers, so `Nat`. -/
def l1dist (q v : List Int) : Nat :=
  ((q.zip v).map (fun p => (p.1 - p.2).natAbs)).sum

/-- The `scored_rules` accumulation loop of `simulate_rag_retrieval`: a chunk
is skipped when its vector is falsy (`None` or the empty list) or has a
different length than the query vector. -/
def scoredRules (q : List Int) (db : List VChunk) : List Scored :=
  db.filterMap (fun rule_chunk =>
    match rule_chunk.vector with
    | none => none
    | some rule_vector =>
      if rule_vector.isEmpty || rule_vector.length ≠ q.length then none
      else some ⟨rule_chunk.rule_text, l1dist q rule_vector⟩)

/-- Embedding of `scored_rules.sort(key=lambda x: x['score'])`: Python's stable ascending
sort by score, modelled by insertion sort (stable for the same preorder). -/
def sortScored (l : List Scored) : List Scored :=
  l.insertionSort (fun a b => a.score ≤ b.score)

/-- The fallback returned when `job_post_vector is None`. -/
def RAG_FAILED_MSG : String :=
  "（RAG FAILED: Mock vector generation skipped or failed）"

/-- The fallback returned when no rule chunk could be scored. -/
def NO_RULES_FOUND_MSG : String :=
  "関連するルールは見つかりませんでした（RAG DB 空またはベクトル不一致）。"

/-- The separator joining the selected rule texts. -/
def RULES_SEPARATOR : String := "\n\n---\n\n"

/-- Embedding of `simulate_rag_retrieval(job_post_vector, rulebook_vector_db,
num_relevant_rules=3)`. -/
def simulate_rag_retrieval (job_post_vector : Option (List Int))
    (rulebook_vector_db : List VChunk) (num_relevant_rules : Nat := 3) :
    String :=
  match job_post_vector with
  | none => RAG_FAILED_MSG
  | some q =>
    let scored_rules := scoredRules q rulebook_vector_db
    if scored_rules.isEmpty then NO_RULES_FOUND_MSG
    else
      pyJoin RULES_SEPARATOR
        (((sortScored scored_rules).take num_relevant_rules).map
          (fun chunk => chunk.rule_text))

/-- The canned "violation found" simulator string (the `random() < 0.5`
branch of `simulate_ai_call`). -/
def SIM_VIOLATION_MSG : String :=
  "・**問題点がある箇所**: 給与セクション (シミュレーション fallback)\n・**問題の内容**: 最低賃金の明示方法に問題あり。(シミュレーション fallback)\n・**修正提案**: 適切な形式で記載してください。(シミュレーション fallback)"

/-- The canned "no issues" simulator string (the other branch). -/
def SIM_NO_ISSUES_MSG : String :=
  "審査の結果、問題は見つかりませんでした。(シミュレーション fallback)"

/-- Embedding of `simulate_ai_call(prompt)`: ignores the prompt content and returns one of
two canned strings depending on `random.random() < 0.5`; the random draw is
modelled by the boolean `coin`. -/
def simulate_ai_call (_prompt : String) (coin : Bool) : String :=
  if coin then SIM_VIOLATION_MSG else SIM_NO_ISSUES_MSG

/-- The four environment variables consulted by
`get_azure_openai_credentials` (`os.environ.get` yields `None` when unset). -/
structure EnvVars where
  api_key : Option String
  azure_endpoint : Option String
  api_version : Option String
  deployment_name : Option String

/-- The credentials dictionary returned on success. -/
structure Credentials where
  api_key : String
  azure_endpoint : String
  api_version : String
  deployment_name : String

/-- Embedding of `get_azure_openai_credentials()`: `None` as soon as any of the four
variables is unset or empty (Python truthiness of `str`). -/
def get_azure_openai_credentials (env : EnvVars) : Option Credentials :=
  match env.api_key, env.azure_endpoint, env.api_version, env.deployment_name with
  | some k, some e, some v, some d =>
    if k.isEmpty || e.isEmpty || v.isEmpty || d.isEmpty then none
    else some ⟨k, e, v, d⟩
  | _, _, _, _ => none

/-- The external world as seen by `perform_review`: the environment
variables, the LLM client (an oracle from the prompt to
`call_actual_llm_api`'s result — `none` models both an exception inside the
call and a `None` completion content), the simulator's random draw, and
whether the `from .rule_processor import get_mock_vector` succeeds
(`ImportError` handling at lines 226-230 of `reviewer.py`). -/
structure ReviewEnv where
  vars : EnvVars
  llm : String → Option String
  coin : Bool
  importOk : Bool

/-- A piece of a Python format string: a literal stretch, or a `{name}`
placeholder. -/
inductive Seg where
  | lit : String → Seg
  | hole : String → Seg

/-- The template `REVIEW_PROMPT_TEMPLATE` of `reviewer.py`, decomposed into its literal
stretches and its `{name}` placeholders (in source order). -/
def REVIEW_PROMPT_TEMPLATE : List Seg :=
  [Seg.lit "### 命令
あなたは、求人広告の基準や原稿審査マニュアルに従って原稿を審査し、不適切な表現や不足している項目などを指摘するエージェントです。
審査ルールに基づいて入力情報を審査し、問題がある場合、その問題点を具体的に指摘してください。

### 制約条件
* 問題点がある場合のみ、出力形式に従って問題点を指摘してください。
* 問題がない場合は、何も出力しないでください。
* 指摘は、問題点がある箇所、問題の内容、そして修正提案を簡潔に記述してください。
* 審査ルールに記載されていない問題は指摘しないでください。
* 軽微な表現の揺れも検知してください。

### 特に注意すべき確認事項
以下の点について特に注意深く確認し、該当する場合は指摘事項に含めてください：
- **固定残業制について**:
    - 固定残業代制度を採用している場合、1. 固定残業代の金額、2. その金額に充当する労働時間数、3. 固定残業代を超える労働を行った場合は追加支給する旨、の3点が明確に記載されているか。
    - 固定残業時間が月45時間を超える場合は、三六協定に関する適切な注釈（特別条項付き三六協定の締結など）が記載されているか。
- **勤務時間について**:
    - 始業・終業時刻、実働時間、休憩時間が具体的に明記されているか。「実働8時間」のような記載だけでなく、具体的な時刻の記載が必要か確認してください。
- **給与について**:
    - 複数の勤務地が記載されている場合、勤務地ごとの給与体系が明確に示されているか、あるいは全勤務地共通の給与である旨が明記されているか。勤務地のリストと給与情報の間に矛盾や記載漏れがないか。
- **試用期間について**:
    - 試用期間が設定されており、かつ本採用時と労働条件（給与等）が異なる場合、1. 異なる条件の内容、2. それ以外の条件に変更はない旨、の両方が明記されているか。
- **改正職業安定法に基づく明示事項**:
    - 「従事すべき業務の変更の範囲」が具体的に記載されているか。
- **差別的表現・不適切な表現について**:
    - 応募者の出身地、居住地、性別、年齢（法令で許可される場合を除く）を不当に限定する表現（例：「○○県出身者歓迎」）がないか。
    - 「笑顔が素敵」「明るい性格」のような、応募者の性格や容姿に関する主観的な表現や、業務遂行能力と直接関連しない特性を求める記述がないか。もしあれば、客観的なスキルや経験に基づく表現への修正を提案すること。
- **受動喫煙対策について**:
    - 就業場所における受動喫煙を防止するための具体的な措置（例：屋内禁煙、喫煙専用室設置など）が明記されているか。「対策なし」という記載だけでは不十分な場合がある。
- **原稿内情報の整合性について**:
    - 求人広告内の複数箇所（例：広告上部のサマリーと詳細な募集要項）で、勤務地、職種、給与などの情報に矛盾がないか。
- **給与（勤務地別）**: リストアップされた全ての勤務地（特に「北海道」のような具体的な地域名が明記されている場合）について、対応する給与情報が明確に記載されているか、記載漏れがないか、特に注意して確認してください。
- **試用期間の詳細**: 試用期間の定めがあり、かつ本採用時と労働条件（給与、勤務時間など）が異なる場合、その全ての相違点、及び『その他の労働条件は本採用時と変更なし』といった趣旨の記載が明確にされているか、厳密に確認してください。
- **業務の変更の範囲**: 改正職業安定法に基づき、「従事すべき業務の変更の範囲」に関する具体的な記載が求人情報に含まれているか、必ず確認してください。記載が全くない場合は指摘が必要です。
- **勤務地情報の整合性**: 求人情報内で勤務地が複数回（例：広告ヘッダー、概要セクション、募集要項詳細など）記載されている場合、それら全ての勤務地情報が完全に一致しているか、矛盾や食い違いがないか、詳細に比較・確認してください。
- **給与（特定地域での記載漏れチェック）**: 勤務地リストに「北海道」が含まれている場合、北海道勤務時の給与条件（金額、給与体系など）が具体的に明記されているか、特に厳しく確認してください。他の地域と給与条件が異なる場合はその旨、共通の場合はその旨がわかるように記載されている必要があります。記載がない場合は明確な指摘が必要です。
- **勤務地情報の一貫性（詳細チェック）**: 求人情報内で勤務地が複数回（例：広告の最上部、概要文中、募集要項の表内など）記載されている場合、それら全ての箇所でリストアップされている都道府県名、市区町村名、具体的な事業所名やキャンパス名などが、一字一句違わずに完全に一致しているか、詳細にわたり全ての地名を比較・確認してください。部分的な一致（例：一方は市まで、他方は町まで記載）や、一方にのみ存在する地名、あるいは表記の順序の違いも矛盾として指摘対象となるか検討してください。
- **主観的表現の再チェック**: 人事担当者のコメント等で、『○○な方』『○○力がある方』といった表現が使われている場合、それが具体的な業務スキルや測定可能な経験に基づいているか、それとも『笑顔が素敵』『高いコミュニケーション能力』のような定義が曖昧で主観に左右される可能性のある表現か、再度厳しくチェックしてください。後者の場合は、客観的基準への修正を促す指摘を検討してください。
- **【最重要確認】業務の変更の範囲**: 「従事すべき業務の変更の範囲」に関する記載が、求人原稿のどこかに具体的に（例：「雇入れ直後の業務：○○。変更の範囲：△△部の関連業務全般」のように）記述されているか、全文を徹底的に確認してください。この項目が一切記載されていない場合は、明確な規定違反として指摘してください。
- **【最重要確認】勤務地情報の一貫性**: 勤務地情報が求人広告内の複数箇所（例：最上部のリスト、概要文、募集要項の詳細テーブルなど、考えられる全ての場所）に記載されている場合、それら全ての箇所でリストアップされている都道府県名、市区町村名、それ以下の詳細住所、事業所名、キャンパス名などが、一字一句違わずに完全に一致しているか、徹底的に比較・確認してください。部分的な一致（例：一方は「大阪市」、他方は「大阪市中央区」）、情報の過不足（一方にのみ記載がある地名）、表記の揺れや順序の違いも矛盾として厳しく指摘してください。

### 審査ルール
",
   Seg.hole "relevant_rules",
   Seg.lit "

### 入力情報
求人原稿URL: ",
   Seg.hole "job_post_url",
   Seg.lit "
職種: ",
   Seg.hole "job_title",
   Seg.lit "
給与: ",
   Seg.hole "salary",
   Seg.lit "
勤務地: ",
   Seg.hole "location",
   Seg.lit "
応募資格: ",
   Seg.hole "qualifications",
   Seg.lit "
求人原稿のその他全文テキスト: ",
   Seg.hole "full_text_content",
   Seg.lit "

### 出力
・**問題点がある箇所**: （例：給与欄、応募資格欄など）
・**問題の内容**: （例：最低賃金の記載がありません。固定残業代に関する必須項目3点の記載がありません。など）
・**修正提案**: （例：月給25万円以上のように最低保証額を記載してください。固定残業代の金額、充当時間数、超過分の追加支給について明記してください。など）
"]

/-- The placeholder names of a template, in order of appearance. -/
def holeNames (t : List Seg) : List String :=
  t.filterMap (fun seg =>
    match seg with
    | Seg.lit _ => none
    | Seg.hole n => some n)

/-- Python `template.format(**data)` over the segment decomposition: every
literal is copied, every `{name}` placeholder is replaced by `data[name]`;
`none` models the `KeyError` raised when a placeholder has no substitution
value. -/
def pyFormat : List Seg → List (String × String) → Option String
  | [], _ => some ""
  | Seg.lit s :: rest, data => (pyFormat rest data).map (fun r => s ++ r)
  | Seg.hole n :: rest, data =>
    match data.lookup n with
    | none => none
    | some v => (pyFormat rest data).map (fun r => v ++ r)

/-- Python truthiness of an optional string (`if job_title:`): present and
non-empty. -/
def truthyOpt : Option String → Bool
  | none => false
  | some s => !s.isEmpty

/-- Embedding of `field if field else "N/A"` for an optional posting field. -/
def fieldOrNA : Option String → String
  | none => "N/A"
  | some s => if s.isEmpty then "N/A" else s

/-- The `text_for_rag` assembly of `perform_review` (lines 204-223): present
fields are labelled and collected, a `\n---\n本文:` divider precedes the full
text when both sides exist, the parts are joined and stripped, and an empty
result is replaced by the fixed sentinel. -/
def build_text_for_rag (job_title salary location qualifications
    full_text_content : Option String) : String :=
  let parts : List String :=
    (if truthyOpt job_title then ["職種: " ++ job_title.getD ""] else []) ++
    (if truthyOpt salary then ["給与: " ++ salary.getD ""] else []) ++
    (if truthyOpt location then ["勤務地: " ++ location.getD ""] else []) ++
    (if truthyOpt qualifications then
      ["応募資格: " ++ qualifications.getD ""] else [])
  let parts :=
    if !parts.isEmpty && truthyOpt full_text_content then
      parts ++ ["\n---\n本文:"] else parts
  let parts :=
    if truthyOpt full_text_content then
      parts ++ [full_text_content.getD ""] else parts
  let text_for_rag := pyStripStr (pyJoin "\n" parts)
  if text_for_rag.isEmpty then "求人情報なし" else text_for_rag

/-- The replacement applied to the retrieval result when it is blank or one
of the two retrieval-failure strings (lines 233-236). -/
def GENERIC_RULES_MSG : String :=
  "関連する審査ルールを特定できませんでした。一般的な注意点に基づいて審査します。"

/-- The `prompt_data` dictionary of `perform_review` (lines 238-246), as an
association list in source order. -/
def build_prompt_data (job_post_url : String) (job_title salary location
    qualifications full_text_content : Option String)
    (retrieved_rules_text : String) : List (String × String) :=
  [("job_post_url", if job_post_url.isEmpty then "N/A" else job_post_url),
   ("job_title", fieldOrNA job_title),
   ("salary", fieldOrNA salary),
   ("location", fieldOrNA location),
   ("qualifications", fieldOrNA qualifications),
   ("full_text_content", fieldOrNA full_text_content),
   ("relevant_rules", retrieved_rules_text)]

/-- Wrapper around `pyFormat`, defaulting the (statically unreachable) `KeyError` case. -/
def pyFormatD (t : List Seg) (data : List (String × String)) : String :=
  (pyFormat t data).getD ""

/-- The prompt-assembly half of `perform_review` (lines 204-247): build the
RAG text, vectorize it (a zero vector when the `rule_processor` import
fails), retrieve rules, substitute the failure fallbacks, and render the
template. -/
def assemble_prompt (job_post_url : String) (job_title salary location
    qualifications full_text_content : Option String)
    (rulebook_vector_db : List VChunk) (importOk : Bool) : String :=
  let text_for_rag :=
    build_text_for_rag job_title salary location qualifications
      full_text_content
  let job_post_vector : List Int :=
    if importOk then get_mock_vector text_for_rag
    else List.replicate 10 0
  let retrieved_rules_text :=
    simulate_rag_retrieval (some job_post_vector) rulebook_vector_db
  let retrieved_rules_text :=
    if (pyStripStr retrieved_rules_text).isEmpty ||
        startsLitStr "（RAG FAILED" retrieved_rules_text ||
        startsLitStr "関連するルールは見つかりませんでした" retrieved_rules_text then
      GENERIC_RULES_MSG
    else retrieved_rules_text
  pyFormatD REVIEW_PROMPT_TEMPLATE
    (build_prompt_data job_post_url job_title salary location qualifications
      full_text_content retrieved_rules_text)

/-- The failure marker prefixed when a real LLM call was attempted and
failed. -/
def API_FAILED_MARKER : String := "[REAL API CALL FAILED] "

/-- Embedding of `perform_review` (lines 193-265).  The final
`review_result if review_result is not None else ...` guard of line 265 is
dead (every branch assigns a string) and therefore collapses away.  The
totality of this definition is the embedding of "no exception propagates out
of `perform_review`". -/
def perform_review (job_post_url : String) (job_title salary location
    qualifications full_text_content : Option String)
    (rulebook_vector_db : List VChunk) (env : ReviewEnv) : String :=
  let assembled_prompt :=
    assemble_prompt job_post_url job_title salary location qualifications
      full_text_content rulebook_vector_db env.importOk
  match get_azure_openai_credentials env.vars with
  | some _ =>
    match env.llm assembled_prompt with
    | some r =>
      if r.isEmpty then
        API_FAILED_MARKER ++ simulate_ai_call assembled_prompt env.coin
      else r
    | none =>
      API_FAILED_MARKER ++ simulate_ai_call assembled_prompt env.coin
  | none => simulate_ai_call assembled_prompt env.coin

/-! ## Helper lemmas -/

/-- A string with a non-nil character list is not the empty string. -/
theorem mk_ne_empty {l : List Char} (h : l ≠ []) : (⟨l⟩ : String) ≠ "" := by
  intro he
  exact h (congrArg String.data he)

/-- A character that fails the predicate survives `List.dropWhile`. -/
theorem mem_dropWhile_of_not {p : Char → Bool} {c : Char} {l : List Char}
    (hc : p c = false) (hm : c ∈ l) : c ∈ l.dropWhile p := by
  have hsplit := List.takeWhile_append_dropWhile p l
  rcases List.mem_append.1 (hsplit ▸ hm) with h | h
  · exact absurd (List.mem_takeWhile_imp h) (by simp [hc])
  · exact h

/-- A non-whitespace character of a line survives `pyStrip`. -/
theorem mem_pyStrip_of_not_ws {c : Char} {l : List Char}
    (hc : pyWs c = false) (hm : c ∈ l) : c ∈ pyStrip l := by
  unfold pyStrip
  rw [List.mem_reverse]
  exact mem_dropWhile_of_not hc (List.mem_reverse.2 (mem_dropWhile_of_not hc hm))

/-- Stripping preserves the presence of a non-whitespace character. -/
theorem hasNonWs_pyStrip {l : List Char} (h : hasNonWs l = true) :
    hasNonWs (pyStrip l) = true := by
  rcases List.any_eq_true.1 h with ⟨c, hm, hc⟩
  exact List.any_eq_true.2 ⟨c, mem_pyStrip_of_not_ws (by simpa using hc) hm, hc⟩

/-- A line whose strip is non-empty contains a non-whitespace character. -/
theorem hasNonWs_of_pyStrip_ne_nil {l : List Char} (h : pyStrip l ≠ []) :
    hasNonWs l = true := by
  by_contra hall
  apply h
  have hws : ∀ c ∈ l, pyWs c = true := by
    intro c hm
    by_contra hcf
    exact hall (List.any_eq_true.2 ⟨c, hm, by simpa using hcf⟩)
  have h1 : l.dropWhile pyWs = [] := List.dropWhile_eq_nil_iff.2 hws
  simp [pyStrip, h1]

/-- Collapsing space runs preserves the presence of a non-whitespace
character (only spaces, which are whitespace, are dropped). -/
theorem hasNonWs_condenseAux {l : List Char} :
    ∀ b, hasNonWs l = true → hasNonWs (condenseAux b l) = true := by
  induction l with
  | nil => intro b h; simp [hasNonWs] at h
  | cons c rest ih =>
    intro b h
    by_cases hc : c = ' '
    · subst hc
      have hrest : hasNonWs rest = true := by
        simpa [hasNonWs, pyWs] using h
      by_cases hb : b
      · simpa [condenseAux, hb] using ih true hrest
      · simp only [condenseAux, hb, if_true, if_false]
        have := ih true hrest
        simpa [hasNonWs, pyWs] using this
    · simp only [condenseAux, hc, if_false]
      rcases (List.any_eq_true.1 h) with ⟨d, hd, hdp⟩
      rcases List.mem_cons.1 hd with rfl | hd
      · exact List.any_eq_true.2 ⟨d, List.mem_cons_self _ _, hdp⟩
      · have : hasNonWs rest = true := List.any_eq_true.2 ⟨d, hd, hdp⟩
        have := ih false this
        rcases List.any_eq_true.1 this with ⟨e, he, hep⟩
        exact List.any_eq_true.2 ⟨e, List.mem_cons_of_mem _ he, hep⟩

/-- The function `condense` preserves the presence of a non-whitespace character. -/
theorem hasNonWs_condense {l : List Char} (h : hasNonWs l = true) :
    hasNonWs (condense l) = true :=
  hasNonWs_condenseAux false h

/-- A non-whitespace character in any joined line appears in the join. -/
theorem hasNonWs_joinNL {L : List (List Char)} {l : List Char}
    (hl : l ∈ L) (h : hasNonWs l = true) : hasNonWs (joinNL L) = true := by
  induction L with
  | nil => cases hl
  | cons l0 rest ih =>
    rcases List.mem_cons.1 hl with rfl | hmem
    · cases rest with
      | nil => simpa [joinNL] using h
      | cons r rs =>
        rcases List.any_eq_true.1 h with ⟨c, hc, hcp⟩
        exact List.any_eq_true.2
          ⟨c, by simp [joinNL, List.mem_append, hc], hcp⟩
    · cases rest with
      | nil => cases hmem
      | cons r rs =>
        have := ih hmem
        rcases List.any_eq_true.1 this with ⟨c, hc, hcp⟩
        exact List.any_eq_true.2
          ⟨c, by simp [joinNL, List.mem_append, List.mem_cons]; tauto, hcp⟩

/-- The section title `t` was captured from a `main_item_regex` line among
`all`. -/
def titleSeen (all : List (List Char)) (t : String) : Prop :=
  ∃ l ∈ all, ∃ g, matchMainItem l = some g ∧ t = (⟨pyStrip g⟩ : String)

/-- Invariant of the `parse_rulebook_to_chunks` loop over a document whose
lines are among `all`: any open section title was captured from a main-item
line, every buffered line has a non-empty strip, and every emitted chunk
carries a captured section title and a rule text containing a
non-whitespace character. -/
def stateInv (all : List (List Char)) (st : ParseState) : Prop :=
  (∀ t, st.current_main_item_title = some t → titleSeen all t) ∧
  (∀ l ∈ st.current_rule_lines, pyStrip l ≠ []) ∧
  (∀ ch ∈ st.chunks,
    titleSeen all ch.main_item_title ∧ hasNonWs ch.rule_text.data = true)

/-- The function `finalize_chunk` does not change the open section title. -/
theorem finalizeChunk_title (st : ParseState) :
    (finalizeChunk st).current_main_item_title = st.current_main_item_title := by
  unfold finalizeChunk
  split <;> rfl

/-- The function `finalize_chunk` clears the line buffer. -/
theorem finalizeChunk_lines (st : ParseState) :
    (finalizeChunk st).current_rule_lines = [] := by
  unfold finalizeChunk
  split <;> rfl

/-- The chunk list after `finalize_chunk`: unchanged unless lines are
buffered under an open title, in which case the cleaned chunk is appended. -/
theorem finalizeChunk_chunks (st : ParseState) :
    (finalizeChunk st).chunks = st.chunks ∨
    (∃ t b0 brest, st.current_main_item_title = some t ∧
      st.current_rule_lines = b0 :: brest ∧
      (finalizeChunk st).chunks = st.chunks ++
        [⟨t, ⟨pyStrip (joinNL ((b0 :: brest).map
          (fun l => condense (pyStrip l))))⟩⟩]) := by
  unfold finalizeChunk
  split
  · exact Or.inl rfl
  · exact Or.inl rfl
  · rename_i hd tl ttl heqb heqt
    exact Or.inr ⟨ttl, hd, tl, heqt, heqb, rfl⟩

/-- The function `finalize_chunk` preserves the invariant: the freshly emitted chunk's
text retains a non-whitespace character of the first buffered line. -/
theorem finalizeChunk_inv {all : List (List Char)} {st : ParseState}
    (h : stateInv all st) : stateInv all (finalizeChunk st) := by
  obtain ⟨ht, hb, hc⟩ := h
  refine ⟨?_, ?_, ?_⟩
  · intro t hteq
    rw [finalizeChunk_title] at hteq
    exact ht t hteq
  · rw [finalizeChunk_lines]
    intro l hl
    cases hl
  · intro ch hch
    rcases finalizeChunk_chunks st with heq | ⟨t, b0, brest, htitle, hbuf, heq⟩
    · exact hc ch (heq ▸ hch)
    · rw [heq] at hch
      rcases List.mem_append.1 hch with hch | hch
      · exact hc ch hch
      · simp only [List.mem_singleton] at hch
        subst hch
        refine ⟨ht t htitle, ?_⟩
        have h0 : pyStrip b0 ≠ [] := hb b0 (hbuf ▸ List.mem_cons_self _ _)
        have h1 : hasNonWs (condense (pyStrip b0)) = true :=
          hasNonWs_condense (hasNonWs_pyStrip (hasNonWs_of_pyStrip_ne_nil h0))
        have h2 : condense (pyStrip b0) ∈
            (b0 :: brest).map (fun l => condense (pyStrip l)) := by
          simp
        exact hasNonWs_pyStrip (hasNonWs_joinNL h2 h1)

/-- One parser step preserves the invariant, provided the consumed line is
among `all`. -/
theorem parseStep_inv {all : List (List Char)} {st : ParseState}
    {line : List Char} (hline : line ∈ all) (h : stateInv all st) :
    stateInv all (parseStep st line) := by
  have hfin := finalizeChunk_inv h
  obtain ⟨ht, hb, hc⟩ := h
  obtain ⟨hft, hfb, hfc⟩ := hfin
  unfold parseStep
  cases hblank : (pyStrip line).isEmpty with
  | true => exact ⟨ht, hb, hc⟩
  | false =>
    simp only [Bool.false_eq_true, if_false]
    cases hign : (ignoredHeader line || ignoredLine line) with
    | true =>
      simp only [if_true]
      exact ⟨by simp, hfb, hfc⟩
    | false =>
      simp only [Bool.false_eq_true, if_false]
      cases hmain : matchMainItem line with
      | some g =>
        refine ⟨?_, hfb, hfc⟩
        intro t' hteq
        simp only [Option.some.injEq] at hteq
        exact ⟨line, hline, g, hmain, hteq.symm⟩
      | none =>
        cases htitle : st.current_main_item_title with
        | none => exact ⟨ht, hb, hc⟩
        | some t0 =>
          cases hstart : isNewRuleStart line with
          | true =>
            simp only [if_true]
            refine ⟨?_, ?_, hfc⟩
            · intro t' hteq
              simp only [finalizeChunk_title] at hteq
              exact ht t' hteq
            · intro l hl
              simp only [List.mem_singleton] at hl
              subst hl
              simpa using hblank
          | false =>
            simp only [Bool.false_eq_true, if_false]
            refine ⟨?_, ?_, hc⟩
            · intro t' hteq
              simp only [Option.some.injEq] at hteq
              exact hteq ▸ ht t0 htitle
            · intro l hl
              rcases List.mem_append.1 hl with hl | hl
              · exact hb l hl
              · simp only [List.mem_singleton] at hl
                subst hl
                simpa using hblank

/-- The fold over the document lines preserves the invariant. -/
theorem foldl_parseStep_inv {all : List (List Char)} :
    ∀ (lines : List (List Char)) (st : ParseState),
      (∀ l ∈ lines, l ∈ all) → stateInv all st →
      stateInv all (lines.foldl parseStep st) := by
  intro lines
  induction lines with
  | nil => intro st _ h; exact h
  | cons l rest ih =>
    intro st hmem h
    exact ih (parseStep st l)
      (fun x hx => hmem x (List.mem_cons_of_mem _ hx))
      (parseStep_inv (hmem l (List.mem_cons_self _ _)) h)

/-- A list containing a non-whitespace character is non-nil. -/
theorem hasNonWs_ne_nil {l : List Char} (h : hasNonWs l = true) : l ≠ [] := by
  intro hn
  subst hn
  simp [hasNonWs] at h

/-- Every chunk produced by the parser satisfies the loop invariant. -/
theorem parse_chunks_inv (doc : String) :
    ∀ ch ∈ parse_rulebook_to_chunks doc,
      titleSeen (pySplitlines doc) ch.main_item_title ∧
      hasNonWs ch.rule_text.data = true := by
  intro ch hch
  have hinit : stateInv (pySplitlines doc) ⟨[], none, []⟩ :=
    ⟨fun t h => Option.noConfusion h,
     fun l hl => absurd hl (List.not_mem_nil l),
     fun c hc => absurd hc (List.not_mem_nil c)⟩
  have hinv := foldl_parseStep_inv (pySplitlines doc) ⟨[], none, []⟩
    (fun l hl => hl) hinit
  exact (finalizeChunk_inv hinv).2.2 ch hch

/-! ## Concrete documents used by the witnesses and counterexamples -/

/-- A two-bullet section with the exact four-space indentation that
`primary_rule_regex` requires. -/
def chunkBulletDoc4 : String := "    ## 大項目1：T\n    - alpha\n    - beta"

/-- The same document with the bullets indented by three spaces instead of
four (identical line contents up to leading whitespace). -/
def chunkBulletDoc3 : String := "    ## 大項目1：T\n   - alpha\n   - beta"

/-- A one-bullet section whose rule line contains an interior tab. -/
def chunkTabDoc : String := "    ## 大項目1：T\n    - a\tb"

/-! ## Claim C9 -/

/-- C9: every chunk emitted by `parse_rulebook_to_chunks` carries exactly one
section title, captured from a main-item line of the document (chunks are
created only while a section is open), and a `rule_text` that is neither
empty nor whitespace-only. -/
theorem chunk_section_and_nonempty (doc : String) (ch : RuleChunk)
    (hch : ch ∈ parse_rulebook_to_chunks doc) :
    titleSeen (pySplitlines doc) ch.main_item_title ∧
    ch.rule_text ≠ "" ∧ hasNonWs ch.rule_text.data = true := by
  have h := parse_chunks_inv doc ch hch
  refine ⟨h.1, ?_, h.2⟩
  intro he
  exact hasNonWs_ne_nil h.2 (congrArg String.data he)

/-- Witness for C9 at a concrete document and chunk. -/
theorem chunk_section_and_nonempty_witness :
    titleSeen (pySplitlines chunkBulletDoc4) "T" ∧
    ("- alpha" : String) ≠ "" ∧
    hasNonWs ("- alpha" : String).data = true :=
  chunk_section_and_nonempty chunkBulletDoc4 ⟨"T", "- alpha"⟩ (by decide)

/-! ## Claim C2 -/

/-- C2 (amended): while a section is open, a non-blank, non-ignored,
non-header line finalizes the current chunk exactly when it matches one of
the list-item recognizers (`[-*]` bullet at four-space indent, `・` bullet
at eight-space indent, or a deeply indented numbered/parenthesized item);
the raw line itself (marker included) then seeds the next chunk, and every
other such line is appended to the current buffer.  No split-marker
mechanism exists. -/
theorem rule_start_boundary_behavior (st : ParseState) (line : List Char)
    (t : String)
    (htitle : st.current_main_item_title = some t)
    (hblank : pyStrip line ≠ [])
    (hih : ignoredHeader line = false) (hil : ignoredLine line = false)
    (hmain : matchMainItem line = none) :
    (isNewRuleStart line = true →
      parseStep st line = ⟨(finalizeChunk st).chunks, some t, [line]⟩) ∧
    (isNewRuleStart line = false →
      parseStep st line =
        ⟨st.chunks, some t, st.current_rule_lines ++ [line]⟩) := by
  have hblank' : (pyStrip line).isEmpty = false :=
    List.isEmpty_eq_false.2 hblank
  constructor
  · intro hstart
    simp [parseStep, hblank', hih, hil, hmain, htitle, hstart,
      finalizeChunk_title]
  · intro hstart
    simp [parseStep, hblank', hih, hil, hmain, htitle, hstart,
      finalizeChunk_title]

/-- Witness for C2 (amended) at a concrete state and bullet line. -/
theorem rule_start_boundary_behavior_witness :
    parseStep ⟨[], some "T", ["a".data]⟩ "    - alpha".data =
      ⟨[⟨"T", "a"⟩], some "T", ["    - alpha".data]⟩ := by
  have h := (rule_start_boundary_behavior ⟨[], some "T", ["a".data]⟩
    "    - alpha".data "T" rfl (by decide) (by decide) (by decide)
    (by decide)).1 (by decide)
  exact h.trans (by decide)

/-- C2 counterexample: the claim makes non-header chunk boundaries depend
only on a line's content after optional leading whitespace (a split marker
is "after optional leading whitespace, exactly a marker token, optionally
followed by trailing text"), so two documents with identical section-header
lines and identical stripped line contents must chunk identically.  The
code distinguishes them: with four-space bullets it emits two chunks, with
three-space bullets one — boundaries are decided by indentation-sensitive
bulleted-list detection, not by split markers. -/
theorem split_marker_counterexample :
    (pySplitlines chunkBulletDoc4).map (fun l => pyStrip l) =
      (pySplitlines chunkBulletDoc3).map (fun l => pyStrip l) ∧
    (parse_rulebook_to_chunks chunkBulletDoc4).length = 2 ∧
    (parse_rulebook_to_chunks chunkBulletDoc3).length = 1 :=
  ⟨by decide, by decide, by decide⟩

/-! ## Claim C3 -/

/-- The per-line cleaning as the claim words it: collapse every run of space
AND tab characters within a line to one space (for comparison with
`condense`, which — following the code, whose tab-replacing first
computation of `full_rule_text` is dead — collapses only spaces). -/
def condenseSpaceTabAux : Bool → List Char → List Char
  | _, [] => []
  | prev, c :: rest =>
    if c = ' ' || c = '\t' then
      if prev then condenseSpaceTabAux true rest
      else ' ' :: condenseSpaceTabAux true rest
    else c :: condenseSpaceTabAux false rest

/-- Space-and-tab run collapsing (claim wording). -/
def condenseSpaceTab (l : List Char) : List Char :=
  condenseSpaceTabAux false l

/-- Chunk-text finalization as claimed (C3, original wording): strip each
buffered raw line, collapse space/tab runs within each, join with newline
separators, strip the overall result. -/
def clean_rule_text_claimC3 (rawLines : List (List Char)) : String :=
  ⟨pyStrip (joinNL (rawLines.map (fun l => condenseSpaceTab (pyStrip l))))⟩

/-- Chunk-text finalization as the amended claim words it: the same, but
collapsing runs of space characters only (tabs are preserved). -/
def clean_rule_text_spec (rawLines : List (List Char)) : String :=
  ⟨pyStrip (joinNL (rawLines.map (fun l => condense (pyStrip l))))⟩

/-- C3 counterexample: on a rule line with an interior tab the parser emits
the tab unchanged, while the claimed cleaning (collapsing space and tab
runs) would produce a space: the emitted text differs from the claim's at
this concrete input. -/
theorem finalize_tab_counterexample :
    parse_rulebook_to_chunks chunkTabDoc = [⟨"T", "- a\tb"⟩] ∧
    clean_rule_text_claimC3 ["    - a\tb".data] = "- a b" ∧
    ("- a\tb" : String) ≠ "- a b" :=
  ⟨by decide, by decide, by decide⟩

/-- C3 (amended): when `parse_rulebook_to_chunks` finalizes an accumulated
chunk (non-empty buffer under an open section title), the emitted
`rule_text` equals the buffered raw lines each stripped of leading/trailing
whitespace and with runs of space characters (not tabs) collapsed to one
space, joined with newline separators, with the overall result stripped;
and no emitted chunk has empty cleaned text (blank lines never enter the
buffer, so the empty case never arises). -/
theorem finalize_cleaning_amended :
    (∀ (st : ParseState) (t : String), st.current_main_item_title = some t →
      st.current_rule_lines ≠ [] →
      (finalizeChunk st).chunks =
        st.chunks ++ [⟨t, clean_rule_text_spec st.current_rule_lines⟩]) ∧
    (∀ (doc : String) (ch : RuleChunk), ch ∈ parse_rulebook_to_chunks doc →
      ch.rule_text ≠ "") := by
  constructor
  · intro st t htitle hbuf
    unfold finalizeChunk
    split
    · exact absurd (by assumption : st.current_rule_lines = []) hbuf
    · have h0 : st.current_main_item_title = none := by assumption
      rw [htitle] at h0
      exact Option.noConfusion h0
    · rename_i hd tl ttl heqb heqt
      rw [htitle] at heqt
      have : ttl = t := (Option.some.inj heqt).symm
      subst this
      rw [heqb]
      rfl
  · intro doc ch hch
    have h := parse_chunks_inv doc ch hch
    intro he
    exact hasNonWs_ne_nil h.2 (congrArg String.data he)

/-- Witness for C3 (amended) at a concrete buffered line and document. -/
theorem finalize_cleaning_amended_witness :
    (finalizeChunk ⟨[], some "T", ["    - a\tb".data]⟩).chunks =
      [⟨"T", clean_rule_text_spec ["    - a\tb".data]⟩] ∧
    ("- a\tb" : String) ≠ "" := by
  constructor
  · have h := finalize_cleaning_amended.1 ⟨[], some "T", ["    - a\tb".data]⟩
      "T" rfl (by decide)
    simpa using h
  · exact finalize_cleaning_amended.2 chunkTabDoc ⟨"T", "- a\tb"⟩ (by decide)

/-! ## Claims C1 and C4 -/

instance : IsTotal Scored (fun a b => a.score ≤ b.score) :=
  ⟨fun a b => Nat.le_total a.score b.score⟩

instance : IsTrans Scored (fun a b => a.score ≤ b.score) :=
  ⟨fun _ _ _ h1 h2 => Nat.le_trans h1 h2⟩

/-- Inserting into a sorted-by-score list commutes with filtering on a fixed
score value: the stability kernel of insertion sort. -/
theorem filter_orderedInsert_scored (a : Scored) (l : List Scored) (c : Nat) :
    (List.orderedInsert (fun x y : Scored => x.score ≤ y.score) a l).filter
        (fun x => x.score == c) =
      if a.score == c then a :: l.filter (fun x => x.score == c)
      else l.filter (fun x => x.score == c) := by
  induction l with
  | nil =>
    by_cases h : a.score = c
    · have hb : (a.score == c) = true := beq_iff_eq.2 h
      simp [List.orderedInsert, List.filter_cons, hb]
    · have hb : (a.score == c) = false := by simp [h]
      simp [List.orderedInsert, List.filter_cons, hb]
  | cons b l ih =>
    simp only [List.orderedInsert]
    by_cases hab : a.score ≤ b.score
    · rw [if_pos hab]
      by_cases hac : a.score = c
      · have hb : (a.score == c) = true := beq_iff_eq.2 hac
        simp [List.filter_cons, hb]
      · have hb : (a.score == c) = false := by simp [hac]
        simp [List.filter_cons, hb]
    · rw [if_neg hab]
      by_cases hac : a.score = c
      · have hb : (a.score == c) = true := beq_iff_eq.2 hac
        have hbc : (b.score == c) = false := by
          have : b.score ≠ c := by omega
          simp [this]
        simp [List.filter_cons, hb, hbc, ih]
      · have hb : (a.score == c) = false := by simp [hac]
        by_cases hbc : b.score = c
        · have hbb : (b.score == c) = true := beq_iff_eq.2 hbc
          simp [List.filter_cons, hbb, hb, ih]
        · have hbb : (b.score == c) = false := by simp [hbc]
          simp [List.filter_cons, hbb, hb, ih]

/-- Python's sort is stable: filtering the sorted scored list on any fixed
score value returns exactly the equally scored entries in their original
order. -/
theorem filter_sortScored (l : List Scored) (c : Nat) :
    (sortScored l).filter (fun x => x.score == c) =
      l.filter (fun x => x.score == c) := by
  induction l with
  | nil => rfl
  | cons a l ih =>
    simp only [sortScored, List.insertionSort] at ih ⊢
    rw [filter_orderedInsert_scored]
    by_cases hac : a.score = c
    · have hb : (a.score == c) = true := beq_iff_eq.2 hac
      simp [List.filter_cons, hb, ih]
    · have hb : (a.score == c) = false := by simp [hac]
      simp [List.filter_cons, hb, ih]

/-- Modelled from the claim's words (C1): for each chunk whose vector has
the same length as the query vector compute the L1 distance, sort ascending
by distance with the stable sort, take the first `topK` texts and join them
with the fixed separator (returning the fallback when nothing was scored).
This differs from the code only in that the code also skips a present,
length-matching but empty vector. -/
def retrieval_spec_C1 (q : List Int) (db : List VChunk) (topK : Nat) :
    String :=
  let scored := db.filterMap (fun rule_chunk =>
    match rule_chunk.vector with
    | none => none
    | some v =>
      if v.length = q.length then some ⟨rule_chunk.rule_text, l1dist q v⟩
      else none)
  if scored.isEmpty then NO_RULES_FOUND_MSG
  else
    pyJoin RULES_SEPARATOR
      (((sortScored scored).take topK).map (fun c => c.rule_text))

/-- C1 (amended): for every non-empty query vector, retrieval computes the
L1 distance for each chunk with a matching-length vector (skipping missing
or mismatched ones without erroring), sorts ascending by distance — the
selected sequence is sorted and ties keep original chunk order — takes the
first
`topK` texts and joins them with the fixed separator. -/
theorem retrieval_l1_topk (q : List Int) (db : List VChunk) (k : Nat)
    (hq : q ≠ []) :
    simulate_rag_retrieval (some q) db k = retrieval_spec_C1 q db k ∧
    List.Sorted (fun a b : Scored => a.score ≤ b.score)
      (sortScored (scoredRules q db)) ∧
    ∀ c : Nat, (sortScored (scoredRules q db)).filter (fun x => x.score == c) =
      (scoredRules q db).filter (fun x => x.score == c) := by
  refine ⟨?_, List.sorted_insertionSort _ _, fun c => filter_sortScored _ c⟩
  have hscored : scoredRules q db = db.filterMap (fun rule_chunk =>
      match rule_chunk.vector with
      | none => none
      | some v =>
        if v.length = q.length then some ⟨rule_chunk.rule_text, l1dist q v⟩
        else none) := by
    apply List.filterMap_congr
    intro rc _
    cases hv : rc.vector with
    | none => simp [scoredRules]
    | some v =>
      by_cases hlen : v.length = q.length
      · have hvne : v ≠ [] := by
          intro hnil
          subst hnil
          exact hq (List.length_eq_zero.1 hlen.symm)
        simp [scoredRules, hvne, hlen]
      · simp [scoredRules, hlen]
  simp only [simulate_rag_retrieval, retrieval_spec_C1]
  rw [hscored]

/-- The concrete retrieval database of the claim's scenario: chunks at L1
distances 5, 1 and 3 from the query `[10]`, plus a missing-vector chunk and
a mismatched-length chunk that must be skipped. -/
def retrievalDbC1 : List VChunk :=
  [⟨"far", some [15]⟩, ⟨"skipme", none⟩, ⟨"near", some [11]⟩,
   ⟨"mid", some [13]⟩, ⟨"badlen", some [1, 2]⟩]

/-- Witness for C1 (amended): the claim's own scenario — distances
[5, 1, 3], topK = 2 — returns the distance-1 and distance-3 texts in that
order, joined by the fixed separator, with the unusable chunks skipped. -/
theorem retrieval_l1_topk_witness :
    simulate_rag_retrieval (some [10]) retrievalDbC1 2 =
      "near\n\n---\n\nmid" :=
  ((retrieval_l1_topk [10] retrievalDbC1 2 (by decide)).1).trans (by decide)

/-- C1 counterexample: with the empty query vector and a chunk carrying a
present, length-matching (empty) vector, the claim's rule scores the chunk
(distance 0) and returns its text, while the code treats the empty vector
as missing (`not rule_vector`) and returns the fallback. -/
theorem retrieval_empty_query_counterexample :
    simulate_rag_retrieval (some []) [⟨"r", some []⟩] 2 ≠
      retrieval_spec_C1 [] [⟨"r", some []⟩] 2 ∧
    retrieval_spec_C1 [] [⟨"r", some []⟩] 2 = "r" :=
  ⟨by decide, by decide⟩

/-- C4 (amended): retrieval never errors (it is total); when no chunk
yields a usable vector — in particular over the empty chunk list — it
returns the fixed fallback string; but when at least one chunk is usable
and `topK` meets or exceeds the number of usable chunks, it returns all
usable chunks' texts sorted by distance and joined by the separator, not
the fallback. -/
theorem retrieval_fallback (q : List Int) (db : List VChunk) (k : Nat) :
    (scoredRules q db = [] →
      simulate_rag_retrieval (some q) db k = NO_RULES_FOUND_MSG) ∧
    simulate_rag_retrieval (some q) [] k = NO_RULES_FOUND_MSG ∧
    (scoredRules q db ≠ [] → (scoredRules q db).length ≤ k →
      simulate_rag_retrieval (some q) db k =
        pyJoin RULES_SEPARATOR ((sortScored (scoredRules q db)).map
          (fun c => c.rule_text))) := by
  refine ⟨?_, rfl, ?_⟩
  · intro h
    simp [simulate_rag_retrieval, h]
  · intro h hk
    have hlen : (sortScored (scoredRules q db)).length ≤ k := by
      rw [sortScored, List.length_insertionSort]
      exact hk
    have hemp : (scoredRules q db).isEmpty = false := List.isEmpty_eq_false.2 h
    simp only [simulate_rag_retrieval, hemp, Bool.false_eq_true, if_false]
    rw [List.take_of_length_le hlen]

/-- Witness for C4 (amended) at concrete inputs: unusable-vector fallback,
empty-database fallback, and the all-chunks result when topK exceeds the
number of usable chunks. -/
theorem retrieval_fallback_witness :
    simulate_rag_retrieval (some [7]) [⟨"x", none⟩] 3 = NO_RULES_FOUND_MSG ∧
    simulate_rag_retrieval (some [7]) [] 2 = NO_RULES_FOUND_MSG ∧
    simulate_rag_retrieval (some [10]) [⟨"a", some [11]⟩, ⟨"b", some [12]⟩] 5 =
      pyJoin RULES_SEPARATOR ((sortScored (scoredRules [10]
        [⟨"a", some [11]⟩, ⟨"b", some [12]⟩])).map (fun c => c.rule_text)) :=
  ⟨(retrieval_fallback [7] [⟨"x", none⟩] 3).1 (by decide),
   (retrieval_fallback [7] [] 2).2.1,
   (retrieval_fallback [10] [⟨"a", some [11]⟩, ⟨"b", some [12]⟩] 5).2.2
     (by decide) (by decide)⟩

/-- C4 counterexample: one usable chunk, topK = 3 > 1 — the code returns the
chunk's text, not the claimed fallback string. -/
theorem retrieval_topk_exceeds_counterexample :
    simulate_rag_retrieval (some [65]) [⟨"r", some [66]⟩] 3 = "r" ∧
    ("r" : String) ≠ NO_RULES_FOUND_MSG :=
  ⟨by decide, by decide⟩

/-! ## Claims C5, C6, C7, C8, C10 -/

/-- The simulator never returns the empty string. -/
theorem sim_ne_empty (p : String) (coin : Bool) :
    simulate_ai_call p coin ≠ "" := by
  cases coin
  · show SIM_NO_ISSUES_MSG ≠ ""
    decide
  · show SIM_VIOLATION_MSG ≠ ""
    decide

/-- Prefixing the failure marker never yields the empty string. -/
theorem append_marker_ne_empty (s : String) : API_FAILED_MARKER ++ s ≠ "" := by
  intro he
  have h1 : (API_FAILED_MARKER ++ s).length = (0 : Nat) := by rw [he]; rfl
  rw [String.length_append] at h1
  have h2 : API_FAILED_MARKER.length = 23 := rfl
  omega

/-- C5: for any combination of LLM client present or absent, the call
succeeding or failing, and an empty or populated rulebook chunk list,
`perform_review` returns a non-empty string; its totality is the embedding
of "no exception propagates out of `perform_review`". -/
theorem perform_review_total_nonempty :
    ∀ (job_post_url : String)
      (job_title salary location qualifications full_text_content :
        Option String)
      (rulebook_vector_db : List VChunk) (env : ReviewEnv),
      perform_review job_post_url job_title salary location qualifications
        full_text_content rulebook_vector_db env ≠ "" := by
  intro url jt sal loc qual full db env
  simp only [perform_review]
  cases hcred : get_azure_openai_credentials env.vars with
  | none => exact sim_ne_empty _ _
  | some c =>
    cases hllm : env.llm
        (assemble_prompt url jt sal loc qual full db env.importOk) with
    | none => exact append_marker_ne_empty _
    | some r =>
      by_cases hr : r.isEmpty
      · simp only [hr, if_true]
        exact append_marker_ne_empty _
      · simp only [hr, Bool.false_eq_true, if_false]
        intro he
        rw [he] at hr
        exact hr rfl

/-- C6: the template's placeholders are exactly the seven statically known
fields, every placeholder always resolves (so the assembled prompt contains
no unresolved placeholder token and the `relevant_rules` placeholder is
always substituted), and every absent posting field renders as the literal
`"N/A"`. -/
theorem prompt_placeholders_complete :
    holeNames REVIEW_PROMPT_TEMPLATE =
      ["relevant_rules", "job_post_url", "job_title", "salary", "location",
       "qualifications", "full_text_content"] ∧
    (∀ (url : String) (jt sal loc qual full : Option String)
      (rules : String),
      ∃ s, pyFormat REVIEW_PROMPT_TEMPLATE
        (build_prompt_data url jt sal loc qual full rules) = some s) ∧
    (∀ rules : String,
      (build_prompt_data "" none none none none none rules).lookup
        "job_post_url" = some "N/A" ∧
      (build_prompt_data "" none none none none none rules).lookup
        "job_title" = some "N/A" ∧
      (build_prompt_data "" none none none none none rules).lookup
        "salary" = some "N/A" ∧
      (build_prompt_data "" none none none none none rules).lookup
        "location" = some "N/A" ∧
      (build_prompt_data "" none none none none none rules).lookup
        "qualifications" = some "N/A" ∧
      (build_prompt_data "" none none none none none rules).lookup
        "full_text_content" = some "N/A" ∧
      (build_prompt_data "" none none none none none rules).lookup
        "relevant_rules" = some rules) := by
  refine ⟨rfl, ?_, ?_⟩
  · intro url jt sal loc qual full rules
    exact ⟨_, rfl⟩
  · intro rules
    exact ⟨rfl, rfl, rfl, rfl, rfl, rfl, rfl⟩

/-- C7: with credentials absent the result is one of the two canned
simulator strings, with no failure marker; with credentials present and the
LLM call failing, the result is the simulator output prefixed with the fixed
failure marker. -/
theorem simulator_fallback_marker :
    ∀ (url : String) (jt sal loc qual full : Option String)
      (db : List VChunk) (env : ReviewEnv),
      (get_azure_openai_credentials env.vars = none →
        (perform_review url jt sal loc qual full db env = SIM_VIOLATION_MSG ∨
         perform_review url jt sal loc qual full db env = SIM_NO_ISSUES_MSG) ∧
        startsLitStr API_FAILED_MARKER
          (perform_review url jt sal loc qual full db env) = false) ∧
      (∀ c, get_azure_openai_credentials env.vars = some c →
        env.llm (assemble_prompt url jt sal loc qual full db env.importOk) =
          none →
        perform_review url jt sal loc qual full db env =
          API_FAILED_MARKER ++ simulate_ai_call
            (assemble_prompt url jt sal loc qual full db env.importOk)
            env.coin) := by
  intro url jt sal loc qual full db env
  constructor
  · intro hcred
    have hres : perform_review url jt sal loc qual full db env =
        simulate_ai_call
          (assemble_prompt url jt sal loc qual full db env.importOk)
          env.coin := by
      simp only [perform_review, hcred]
    rw [hres]
    cases env.coin
    · have h0 : simulate_ai_call
          (assemble_prompt url jt sal loc qual full db env.importOk) false =
          SIM_NO_ISSUES_MSG := rfl
      rw [h0]
      exact ⟨Or.inr rfl, by decide⟩
    · have h0 : simulate_ai_call
          (assemble_prompt url jt sal loc qual full db env.importOk) true =
          SIM_VIOLATION_MSG := rfl
      rw [h0]
      exact ⟨Or.inl rfl, by decide⟩
  · intro c hcred hllm
    simp only [perform_review, hcred, hllm]

/-- C8: the vectorizer always returns exactly 10 values, and the empty
string vectorizes identically to ten spaces. -/
theorem mock_vector_shape :
    (∀ s : String, (get_mock_vector s).length = 10) ∧
    get_mock_vector "" = get_mock_vector "          " := by
  constructor
  · intro s
    simp only [get_mock_vector, List.length_map, List.length_append,
      List.length_replicate, List.length_take]
    omega
  · decide

/-- C10: an LLM call that returns the empty string as its completion is
treated exactly like a failed call — the simulator output prefixed with the
failure marker is returned, never the empty completion itself. -/
theorem empty_completion_treated_as_failure :
    ∀ (url : String) (jt sal loc qual full : Option String)
      (db : List VChunk) (env : ReviewEnv) (c : Credentials),
      get_azure_openai_credentials env.vars = some c →
      env.llm (assemble_prompt url jt sal loc qual full db env.importOk) =
        some "" →
      perform_review url jt sal loc qual full db env =
        API_FAILED_MARKER ++ simulate_ai_call
          (assemble_prompt url jt sal loc qual full db env.importOk)
          env.coin ∧
      perform_review url jt sal loc qual full db env ≠ "" := by
  intro url jt sal loc qual full db env c hcred hllm
  have hemp : ("" : String).isEmpty = true := rfl
  have h : perform_review url jt sal loc qual full db env =
      API_FAILED_MARKER ++ simulate_ai_call
        (assemble_prompt url jt sal loc qual full db env.importOk)
        env.coin := by
    simp only [perform_review, hcred, hllm, hemp, if_true]
  exact ⟨h, h ▸ append_marker_ne_empty _⟩

/-! ## Concrete environments used by the witnesses -/

/-- No Azure credentials configured. -/
def envNoCreds : ReviewEnv := ⟨⟨none, none, none, none⟩, fun _ => none, true, true⟩

/-- Credentials present but the LLM call fails (raises or yields `None`). -/
def envLlmFails : ReviewEnv :=
  ⟨⟨some "k", some "e", some "v", some "d"⟩, fun _ => none, true, true⟩

/-- Credentials present and the LLM call returns an empty completion. -/
def envLlmEmpty : ReviewEnv :=
  ⟨⟨some "k", some "e", some "v", some "d"⟩, fun _ => some "", false, true⟩

/-- Witness for C7 at concrete environments. -/
theorem simulator_fallback_marker_witness :
    (perform_review "" none none none none none [] envNoCreds =
       SIM_VIOLATION_MSG ∨
     perform_review "" none none none none none [] envNoCreds =
       SIM_NO_ISSUES_MSG) ∧
    perform_review "" none none none none none [] envLlmFails =
      API_FAILED_MARKER ++ simulate_ai_call
        (assemble_prompt "" none none none none none [] true) true :=
  ⟨((simulator_fallback_marker "" none none none none none []
      envNoCreds).1 rfl).1,
   (simulator_fallback_marker "" none none none none none []
      envLlmFails).2 ⟨"k", "e", "v", "d"⟩ rfl rfl⟩

/-- Witness for C10 at a concrete environment. -/
theorem empty_completion_witness :
    perform_review "" none none none none none [] envLlmEmpty =
      API_FAILED_MARKER ++ simulate_ai_call
        (assemble_prompt "" none none none none none [] true) false ∧
    perform_review "" none none none none none [] envLlmEmpty ≠ "" :=
  empty_completion_treated_as_failure "" none none none none none []
    envLlmEmpty ⟨"k", "e", "v", "d"⟩ rfl rfl
